import Mathlib

/-!
Verification of `nonzero_lit` (src/src/lib.rs): a shallow embedding of the
twelve `nz_T` constant constructors generated by the `define_nz_ctor!` macro
in the private module `_private`, together with the twelve user-facing macros
(`usize!`, `i8!`, ...) that wrap them.

Each Rust helper has the shape

    pub const fn nz_T(n: T) -> NonZeroT {
        let _ = ["N must not be zero"][(n == 0) as usize];
        match NonZeroT::new(n) {
            Some(x) => x,
            None => loop {},
        }
    }

Const evaluation can end three ways: normally with a value, with a
compile-time index-out-of-bounds error (the "hacky const fn assert"), or by
entering the `loop {}`.  We embed this with the `ConstEval` outcome type.
Machine integers are embedded as `Int` restricted by the per-type range
predicate `IntTy.inRange`; the pointer-sized types are taken at 64 bits.
-/

namespace NonzeroLit

/-- Width and signedness of a primitive Rust integer type. -/
structure IntTy where
  signed : Bool
  bits : Nat
deriving DecidableEq

/-- Smallest value of the type. -/
def IntTy.min (t : IntTy) : Int :=
  if t.signed then -(2 ^ (t.bits - 1)) else 0

/-- Largest value of the type. -/
def IntTy.max (t : IntTy) : Int :=
  if t.signed then 2 ^ (t.bits - 1) - 1 else 2 ^ t.bits - 1

/-- Predicate: `n` is a value of the primitive type `t`. -/
def IntTy.inRange (t : IntTy) (n : Int) : Prop :=
  t.min ≤ n ∧ n ≤ t.max

instance (t : IntTy) (n : Int) : Decidable (t.inRange n) := by
  unfold IntTy.inRange
  infer_instance

/- The twelve primitive types; usize/isize taken as 64-bit. -/

def usizeTy : IntTy := ⟨false, 64⟩

def isizeTy : IntTy := ⟨true, 64⟩

def u8Ty : IntTy := ⟨false, 8⟩

def i8Ty : IntTy := ⟨true, 8⟩

def u16Ty : IntTy := ⟨false, 16⟩

def i16Ty : IntTy := ⟨true, 16⟩

def u32Ty : IntTy := ⟨false, 32⟩

def i32Ty : IntTy := ⟨true, 32⟩

def u64Ty : IntTy := ⟨false, 64⟩

def i64Ty : IntTy := ⟨true, 64⟩

def u128Ty : IntTy := ⟨false, 128⟩

def i128Ty : IntTy := ⟨true, 128⟩

/-- The `core::num::NonZeroT` wrapper for primitive type `t`.  `get` returns
the wrapped integer, as in Rust. -/
structure NonZero (t : IntTy) where
  get : Int
deriving DecidableEq

/-- Constructor `NonZeroT::new(n)`: `Some` wrapper iff `n` is non-zero. -/
def NonZero.new (t : IntTy) (n : Int) : Option (NonZero t) :=
  if n = 0 then none else some ⟨n⟩

/-- Outcome of const-evaluating a helper body: normal value, compile-time
index-out-of-bounds error, or entry into `loop \x7b\x7d`. -/
inductive ConstEval (α : Type) where
  | ok : α → ConstEval α
  | indexError : ConstEval α
  | diverges : ConstEval α
deriving DecidableEq

/-- The "hacky const fn assert": `["N must not be zero"][(n == 0) as usize]`.
The cast `(n == 0) as usize` is 1 when `n = 0` and 0 otherwise; indexing the
one-element array yields `none` (out of bounds) exactly when `n = 0`. -/
def constAssert (n : Int) : Option String :=
  ["N must not be zero"].get? (if n = 0 then 1 else 0)

/- The twelve helpers, written out as `define_nz_ctor!` expands them. -/

/-- Helper `_private::nz_usize`. -/
def nz_usize (n : Int) : ConstEval (NonZero usizeTy) :=
  match constAssert n with
  | none => .indexError
  | some _ =>
    match NonZero.new usizeTy n with
    | some x => .ok x
    | none => .diverges

/-- Helper `_private::nz_isize`. -/
def nz_isize (n : Int) : ConstEval (NonZero isizeTy) :=
  match constAssert n with
  | none => .indexError
  | some _ =>
    match NonZero.new isizeTy n with
    | some x => .ok x
    | none => .diverges

/-- Helper `_private::nz_u8`. -/
def nz_u8 (n : Int) : ConstEval (NonZero u8Ty) :=
  match constAssert n with
  | none => .indexError
  | some _ =>
    match NonZero.new u8Ty n with
    | some x => .ok x
    | none => .diverges

/-- Helper `_private::nz_i8`. -/
def nz_i8 (n : Int) : ConstEval (NonZero i8Ty) :=
  match constAssert n with
  | none => .indexError
  | some _ =>
    match NonZero.new i8Ty n with
    | some x => .ok x
    | none => .diverges

/-- Helper `_private::nz_u16`. -/
def nz_u16 (n : Int) : ConstEval (NonZero u16Ty) :=
  match constAssert n with
  | none => .indexError
  | some _ =>
    match NonZero.new u16Ty n with
    | some x => .ok x
    | none => .diverges

/-- Helper `_private::nz_i16`. -/
def nz_i16 (n : Int) : ConstEval (NonZero i16Ty) :=
  match constAssert n with
  | none => .indexError
  | some _ =>
    match NonZero.new i16Ty n with
    | some x => .ok x
    | none => .diverges

/-- Helper `_private::nz_u32`. -/
def nz_u32 (n : Int) : ConstEval (NonZero u32Ty) :=
  match constAssert n with
  | none => .indexError
  | some _ =>
    match NonZero.new u32Ty n with
    | some x => .ok x
    | none => .diverges

/-- Helper `_private::nz_i32`. -/
def nz_i32 (n : Int) : ConstEval (NonZero i32Ty) :=
  match constAssert n with
  | none => .indexError
  | some _ =>
    match NonZero.new i32Ty n with
    | some x => .ok x
    | none => .diverges

/-- Helper `_private::nz_u64`. -/
def nz_u64 (n : Int) : ConstEval (NonZero u64Ty) :=
  match constAssert n with
  | none => .indexError
  | some _ =>
    match NonZero.new u64Ty n with
    | some x => .ok x
    | none => .diverges

/-- Helper `_private::nz_i64`. -/
def nz_i64 (n : Int) : ConstEval (NonZero i64Ty) :=
  match constAssert n with
  | none => .indexError
  | some _ =>
    match NonZero.new i64Ty n with
    | some x => .ok x
    | none => .diverges

/-- Helper `_private::nz_u128`. -/
def nz_u128 (n : Int) : ConstEval (NonZero u128Ty) :=
  match constAssert n with
  | none => .indexError
  | some _ =>
    match NonZero.new u128Ty n with
    | some x => .ok x
    | none => .diverges

/-- Helper `_private::nz_i128`. -/
def nz_i128 (n : Int) : ConstEval (NonZero i128Ty) :=
  match constAssert n with
  | none => .indexError
  | some _ =>
    match NonZero.new i128Ty n with
    | some x => .ok x
    | none => .diverges

/-- The single generic body that `define_nz_ctor!` stamps out at each type. -/
def nzCtor (t : IntTy) (n : Int) : ConstEval (NonZero t) :=
  match constAssert n with
  | none => .indexError
  | some _ =>
    match NonZero.new t n with
    | some x => .ok x
    | none => .diverges

/-- Modelled from the spec: the generic reference construction, "assert
`n != 0`, then wrap `n`" — a failing outcome when `n = 0`, the wrapper
around `n` otherwise.  Written from the spec's words, for comparison with
the source-derived helpers. -/
def nzSpecRef (t : IntTy) (n : Int) : ConstEval (NonZero t) :=
  if n = 0 then .indexError else .ok ⟨n⟩

/- The twelve user-facing macros.  `T!(val)` expands to
`const __E: T = val; { #[deny(const_err)] const NZ = nz_T(__E); NZ }`:
the argument is bound to a constant and fed to the helper. -/

/-- The `usize!` macro. -/
def lit_usize (val : Int) : ConstEval (NonZero usizeTy) :=
  let e : Int := val
  nz_usize e

/-- The `isize!` macro. -/
def lit_isize (val : Int) : ConstEval (NonZero isizeTy) :=
  let e : Int := val
  nz_isize e

/-- The `u8!` macro. -/
def lit_u8 (val : Int) : ConstEval (NonZero u8Ty) :=
  let e : Int := val
  nz_u8 e

/-- The `i8!` macro. -/
def lit_i8 (val : Int) : ConstEval (NonZero i8Ty) :=
  let e : Int := val
  nz_i8 e

/-- The `u16!` macro. -/
def lit_u16 (val : Int) : ConstEval (NonZero u16Ty) :=
  let e : Int := val
  nz_u16 e

/-- The `i16!` macro. -/
def lit_i16 (val : Int) : ConstEval (NonZero i16Ty) :=
  let e : Int := val
  nz_i16 e

/-- The `u32!` macro. -/
def lit_u32 (val : Int) : ConstEval (NonZero u32Ty) :=
  let e : Int := val
  nz_u32 e

/-- The `i32!` macro. -/
def lit_i32 (val : Int) : ConstEval (NonZero i32Ty) :=
  let e : Int := val
  nz_i32 e

/-- The `u64!` macro. -/
def lit_u64 (val : Int) : ConstEval (NonZero u64Ty) :=
  let e : Int := val
  nz_u64 e

/-- The `i64!` macro. -/
def lit_i64 (val : Int) : ConstEval (NonZero i64Ty) :=
  let e : Int := val
  nz_i64 e

/-- The `u128!` macro. -/
def lit_u128 (val : Int) : ConstEval (NonZero u128Ty) :=
  let e : Int := val
  nz_u128 e

/-- The `i128!` macro. -/
def lit_i128 (val : Int) : ConstEval (NonZero i128Ty) :=
  let e : Int := val
  nz_i128 e

/- Shared facts about the generic constructor body. -/

theorem constAssert_none_iff (n : Int) : constAssert n = none ↔ n = 0 := by
  by_cases h : n = 0 <;> simp [constAssert, h]

theorem nzCtor_of_ne (t : IntTy) (n : Int) (h : n ≠ 0) :
    nzCtor t n = .ok ⟨n⟩ := by
  simp [nzCtor, constAssert, NonZero.new, h]

theorem nzCtor_of_zero (t : IntTy) : nzCtor t 0 = .indexError := by
  simp [nzCtor, constAssert]

theorem nzCtor_eq_specRef (t : IntTy) (n : Int) : nzCtor t n = nzSpecRef t n := by
  by_cases h : n = 0
  · subst h
    simp [nzCtor_of_zero, nzSpecRef]
  · simp [nzCtor_of_ne t n h, nzSpecRef, h]

theorem nzCtor_indexError_iff (t : IntTy) (n : Int) :
    nzCtor t n = .indexError ↔ n = 0 := by
  rw [nzCtor_eq_specRef]
  by_cases h : n = 0 <;> simp [nzSpecRef, h]

theorem nzCtor_ne_diverges (t : IntTy) (n : Int) : nzCtor t n ≠ .diverges := by
  rw [nzCtor_eq_specRef]
  by_cases h : n = 0 <;> simp [nzSpecRef, h]

theorem nzCtor_ok_iff (t : IntTy) (n : Int) (v : NonZero t) :
    nzCtor t n = .ok v ↔ (n ≠ 0 ∧ v = ⟨n⟩) := by
  rw [nzCtor_eq_specRef]
  by_cases h : n = 0 <;> simp [nzSpecRef, h, eq_comm]

theorem new_isSome_of_ne (t : IntTy) (n : Int) (h : n ≠ 0) :
    NonZero.new t n = some ⟨n⟩ := by
  simp [NonZero.new, h]

theorem nzCtor_roundtrip (t : IntTy) (v : NonZero t) (h : v.get ≠ 0) :
    nzCtor t v.get = .ok v :=
  (nzCtor_ok_iff t v.get v).mpr ⟨h, rfl⟩

theorem nzCtor_get_eq (t : IntTy) (n : Int) (v : NonZero t)
    (h : nzCtor t n = .ok v) : v.get = n := by
  rcases (nzCtor_ok_iff t n v).mp h with ⟨-, rfl⟩
  rfl

theorem nzCtor_ok_get_ne (t : IntTy) (n : Int) (v : NonZero t)
    (h : nzCtor t n = .ok v) : v.get ≠ 0 := by
  rcases (nzCtor_ok_iff t n v).mp h with ⟨hn, rfl⟩
  exact hn

theorem nzCtor_total_of_ne (t : IntTy) (n : Int) (h : n ≠ 0) :
    nzCtor t n ≠ .diverges ∧ nzCtor t n ≠ .indexError ∧ nzCtor t n = .ok ⟨n⟩ := by
  rw [nzCtor_of_ne t n h]
  exact ⟨by simp, by simp, rfl⟩

/- Each expanded helper agrees with the generic template it was stamped from,
and each macro agrees with the helper it calls. -/

theorem nz_usize_eqCtor (n : Int) : nz_usize n = nzCtor usizeTy n := by
  unfold nz_usize nzCtor
  cases constAssert n with
  | none => rfl
  | some s => cases NonZero.new usizeTy n <;> rfl

theorem nz_isize_eqCtor (n : Int) : nz_isize n = nzCtor isizeTy n := by
  unfold nz_isize nzCtor
  cases constAssert n with
  | none => rfl
  | some s => cases NonZero.new isizeTy n <;> rfl

theorem nz_u8_eqCtor (n : Int) : nz_u8 n = nzCtor u8Ty n := by
  unfold nz_u8 nzCtor
  cases constAssert n with
  | none => rfl
  | some s => cases NonZero.new u8Ty n <;> rfl

theorem nz_i8_eqCtor (n : Int) : nz_i8 n = nzCtor i8Ty n := by
  unfold nz_i8 nzCtor
  cases constAssert n with
  | none => rfl
  | some s => cases NonZero.new i8Ty n <;> rfl

theorem nz_u16_eqCtor (n : Int) : nz_u16 n = nzCtor u16Ty n := by
  unfold nz_u16 nzCtor
  cases constAssert n with
  | none => rfl
  | some s => cases NonZero.new u16Ty n <;> rfl

theorem nz_i16_eqCtor (n : Int) : nz_i16 n = nzCtor i16Ty n := by
  unfold nz_i16 nzCtor
  cases constAssert n with
  | none => rfl
  | some s => cases NonZero.new i16Ty n <;> rfl

theorem nz_u32_eqCtor (n : Int) : nz_u32 n = nzCtor u32Ty n := by
  unfold nz_u32 nzCtor
  cases constAssert n with
  | none => rfl
  | some s => cases NonZero.new u32Ty n <;> rfl

theorem nz_i32_eqCtor (n : Int) : nz_i32 n = nzCtor i32Ty n := by
  unfold nz_i32 nzCtor
  cases constAssert n with
  | none => rfl
  | some s => cases NonZero.new i32Ty n <;> rfl

theorem nz_u64_eqCtor (n : Int) : nz_u64 n = nzCtor u64Ty n := by
  unfold nz_u64 nzCtor
  cases constAssert n with
  | none => rfl
  | some s => cases NonZero.new u64Ty n <;> rfl

theorem nz_i64_eqCtor (n : Int) : nz_i64 n = nzCtor i64Ty n := by
  unfold nz_i64 nzCtor
  cases constAssert n with
  | none => rfl
  | some s => cases NonZero.new i64Ty n <;> rfl

theorem nz_u128_eqCtor (n : Int) : nz_u128 n = nzCtor u128Ty n := by
  unfold nz_u128 nzCtor
  cases constAssert n with
  | none => rfl
  | some s => cases NonZero.new u128Ty n <;> rfl

theorem nz_i128_eqCtor (n : Int) : nz_i128 n = nzCtor i128Ty n := by
  unfold nz_i128 nzCtor
  cases constAssert n with
  | none => rfl
  | some s => cases NonZero.new i128Ty n <;> rfl

theorem lit_usize_eqCtor (n : Int) : lit_usize n = nzCtor usizeTy n :=
  nz_usize_eqCtor n

theorem lit_isize_eqCtor (n : Int) : lit_isize n = nzCtor isizeTy n :=
  nz_isize_eqCtor n

theorem lit_u8_eqCtor (n : Int) : lit_u8 n = nzCtor u8Ty n :=
  nz_u8_eqCtor n

theorem lit_i8_eqCtor (n : Int) : lit_i8 n = nzCtor i8Ty n :=
  nz_i8_eqCtor n

theorem lit_u16_eqCtor (n : Int) : lit_u16 n = nzCtor u16Ty n :=
  nz_u16_eqCtor n

theorem lit_i16_eqCtor (n : Int) : lit_i16 n = nzCtor i16Ty n :=
  nz_i16_eqCtor n

theorem lit_u32_eqCtor (n : Int) : lit_u32 n = nzCtor u32Ty n :=
  nz_u32_eqCtor n

theorem lit_i32_eqCtor (n : Int) : lit_i32 n = nzCtor i32Ty n :=
  nz_i32_eqCtor n

theorem lit_u64_eqCtor (n : Int) : lit_u64 n = nzCtor u64Ty n :=
  nz_u64_eqCtor n

theorem lit_i64_eqCtor (n : Int) : lit_i64 n = nzCtor i64Ty n :=
  nz_i64_eqCtor n

theorem lit_u128_eqCtor (n : Int) : lit_u128 n = nzCtor u128Ty n :=
  nz_u128_eqCtor n

theorem lit_i128_eqCtor (n : Int) : lit_i128 n = nzCtor i128Ty n :=
  nz_i128_eqCtor n

/-- Generic form of "non-zero input yields exactly the wrapper of the input",
for any function that agrees with the template. -/
theorem ok_of_ne (t : IntTy) (f : Int → ConstEval (NonZero t))
    (hf : ∀ m, f m = nzCtor t m) (n : Int) (h : n ≠ 0) : f n = .ok ⟨n⟩ := by
  rw [hf]
  exact nzCtor_of_ne t n h

/-- C1: for each of the twelve primitive integer types `T` and every value
`n` of type `T` with `n ≠ 0`, the helper `nz_T n` (and hence the
corresponding macro) returns the non-zero wrapper whose wrapped integer
equals `n` exactly. -/
theorem C1_exact_value :
    (∀ n : Int, usizeTy.inRange n → n ≠ 0 →
      nz_usize n = .ok ⟨n⟩ ∧ lit_usize n = .ok ⟨n⟩) ∧
    (∀ n : Int, isizeTy.inRange n → n ≠ 0 →
      nz_isize n = .ok ⟨n⟩ ∧ lit_isize n = .ok ⟨n⟩) ∧
    (∀ n : Int, u8Ty.inRange n → n ≠ 0 →
      nz_u8 n = .ok ⟨n⟩ ∧ lit_u8 n = .ok ⟨n⟩) ∧
    (∀ n : Int, i8Ty.inRange n → n ≠ 0 →
      nz_i8 n = .ok ⟨n⟩ ∧ lit_i8 n = .ok ⟨n⟩) ∧
    (∀ n : Int, u16Ty.inRange n → n ≠ 0 →
      nz_u16 n = .ok ⟨n⟩ ∧ lit_u16 n = .ok ⟨n⟩) ∧
    (∀ n : Int, i16Ty.inRange n → n ≠ 0 →
      nz_i16 n = .ok ⟨n⟩ ∧ lit_i16 n = .ok ⟨n⟩) ∧
    (∀ n : Int, u32Ty.inRange n → n ≠ 0 →
      nz_u32 n = .ok ⟨n⟩ ∧ lit_u32 n = .ok ⟨n⟩) ∧
    (∀ n : Int, i32Ty.inRange n → n ≠ 0 →
      nz_i32 n = .ok ⟨n⟩ ∧ lit_i32 n = .ok ⟨n⟩) ∧
    (∀ n : Int, u64Ty.inRange n → n ≠ 0 →
      nz_u64 n = .ok ⟨n⟩ ∧ lit_u64 n = .ok ⟨n⟩) ∧
    (∀ n : Int, i64Ty.inRange n → n ≠ 0 →
      nz_i64 n = .ok ⟨n⟩ ∧ lit_i64 n = .ok ⟨n⟩) ∧
    (∀ n : Int, u128Ty.inRange n → n ≠ 0 →
      nz_u128 n = .ok ⟨n⟩ ∧ lit_u128 n = .ok ⟨n⟩) ∧
    (∀ n : Int, i128Ty.inRange n → n ≠ 0 →
      nz_i128 n = .ok ⟨n⟩ ∧ lit_i128 n = .ok ⟨n⟩) :=
  ⟨fun n _ h => ⟨ok_of_ne _ _ nz_usize_eqCtor n h, ok_of_ne _ _ lit_usize_eqCtor n h⟩,
   fun n _ h => ⟨ok_of_ne _ _ nz_isize_eqCtor n h, ok_of_ne _ _ lit_isize_eqCtor n h⟩,
   fun n _ h => ⟨ok_of_ne _ _ nz_u8_eqCtor n h, ok_of_ne _ _ lit_u8_eqCtor n h⟩,
   fun n _ h => ⟨ok_of_ne _ _ nz_i8_eqCtor n h, ok_of_ne _ _ lit_i8_eqCtor n h⟩,
   fun n _ h => ⟨ok_of_ne _ _ nz_u16_eqCtor n h, ok_of_ne _ _ lit_u16_eqCtor n h⟩,
   fun n _ h => ⟨ok_of_ne _ _ nz_i16_eqCtor n h, ok_of_ne _ _ lit_i16_eqCtor n h⟩,
   fun n _ h => ⟨ok_of_ne _ _ nz_u32_eqCtor n h, ok_of_ne _ _ lit_u32_eqCtor n h⟩,
   fun n _ h => ⟨ok_of_ne _ _ nz_i32_eqCtor n h, ok_of_ne _ _ lit_i32_eqCtor n h⟩,
   fun n _ h => ⟨ok_of_ne _ _ nz_u64_eqCtor n h, ok_of_ne _ _ lit_u64_eqCtor n h⟩,
   fun n _ h => ⟨ok_of_ne _ _ nz_i64_eqCtor n h, ok_of_ne _ _ lit_i64_eqCtor n h⟩,
   fun n _ h => ⟨ok_of_ne _ _ nz_u128_eqCtor n h, ok_of_ne _ _ lit_u128_eqCtor n h⟩,
   fun n _ h => ⟨ok_of_ne _ _ nz_i128_eqCtor n h, ok_of_ne _ _ lit_i128_eqCtor n h⟩⟩

/-- C1 witness: `nz_u8 5` and the `u8!` macro both yield the wrapper of 5. -/
theorem C1_exact_value_witness :
    nz_u8 5 = .ok ⟨5⟩ ∧ lit_u8 5 = .ok ⟨5⟩ :=
  C1_exact_value.2.2.1 5 (by decide) (by decide)

/- More generic forms, for any helper that agrees with the template. -/

theorem indexError_iff_zero (t : IntTy) (f : Int → ConstEval (NonZero t))
    (hf : ∀ m, f m = nzCtor t m) (n : Int) : f n = .indexError ↔ n = 0 := by
  rw [hf]
  exact nzCtor_indexError_iff t n

theorem exists_ok_of_ne (t : IntTy) (f : Int → ConstEval (NonZero t))
    (hf : ∀ m, f m = nzCtor t m) (n : Int) (h : n ≠ 0) : ∃ v, f n = .ok v :=
  ⟨⟨n⟩, ok_of_ne t f hf n h⟩

theorem ne_diverges (t : IntTy) (f : Int → ConstEval (NonZero t))
    (hf : ∀ m, f m = nzCtor t m) (n : Int) : f n ≠ .diverges := by
  rw [hf]
  exact nzCtor_ne_diverges t n

theorem f_roundtrip (t : IntTy) (f : Int → ConstEval (NonZero t))
    (hf : ∀ m, f m = nzCtor t m) (v : NonZero t) (h : v.get ≠ 0) :
    f v.get = .ok v := by
  rw [hf]
  exact nzCtor_roundtrip t v h

theorem f_get_eq (t : IntTy) (f : Int → ConstEval (NonZero t))
    (hf : ∀ m, f m = nzCtor t m) (n : Int) (v : NonZero t)
    (h : f n = .ok v) : v.get = n := by
  rw [hf] at h
  exact nzCtor_get_eq t n v h

theorem f_get_ne (t : IntTy) (f : Int → ConstEval (NonZero t))
    (hf : ∀ m, f m = nzCtor t m) (n : Int) (v : NonZero t)
    (h : f n = .ok v) : v.get ≠ 0 := by
  rw [hf] at h
  exact nzCtor_ok_get_ne t n v h

theorem f_total (t : IntTy) (f : Int → ConstEval (NonZero t))
    (hf : ∀ m, f m = nzCtor t m) (n : Int) (h : n ≠ 0) :
    f n ≠ .diverges ∧ f n ≠ .indexError ∧ f n = .ok ⟨n⟩ := by
  rw [hf]
  exact nzCtor_total_of_ne t n h

/-- C2: for each of the twelve helpers, the hacky const assert — indexing the
one-element array `["N must not be zero"]` at position `(n == 0) as usize` —
is out of bounds exactly when `n = 0`, in which case the helper ends in the
compile-time index error; for every `n ≠ 0` the index is in bounds and
evaluation proceeds to a normal result. -/
theorem C2_assert_oob_iff_zero :
    (∀ n : Int, constAssert n = none ↔ n = 0) ∧
    (∀ n : Int, (nz_usize n = .indexError ↔ n = 0) ∧
      (n ≠ 0 → ∃ v, nz_usize n = .ok v)) ∧
    (∀ n : Int, (nz_isize n = .indexError ↔ n = 0) ∧
      (n ≠ 0 → ∃ v, nz_isize n = .ok v)) ∧
    (∀ n : Int, (nz_u8 n = .indexError ↔ n = 0) ∧
      (n ≠ 0 → ∃ v, nz_u8 n = .ok v)) ∧
    (∀ n : Int, (nz_i8 n = .indexError ↔ n = 0) ∧
      (n ≠ 0 → ∃ v, nz_i8 n = .ok v)) ∧
    (∀ n : Int, (nz_u16 n = .indexError ↔ n = 0) ∧
      (n ≠ 0 → ∃ v, nz_u16 n = .ok v)) ∧
    (∀ n : Int, (nz_i16 n = .indexError ↔ n = 0) ∧
      (n ≠ 0 → ∃ v, nz_i16 n = .ok v)) ∧
    (∀ n : Int, (nz_u32 n = .indexError ↔ n = 0) ∧
      (n ≠ 0 → ∃ v, nz_u32 n = .ok v)) ∧
    (∀ n : Int, (nz_i32 n = .indexError ↔ n = 0) ∧
      (n ≠ 0 → ∃ v, nz_i32 n = .ok v)) ∧
    (∀ n : Int, (nz_u64 n = .indexError ↔ n = 0) ∧
      (n ≠ 0 → ∃ v, nz_u64 n = .ok v)) ∧
    (∀ n : Int, (nz_i64 n = .indexError ↔ n = 0) ∧
      (n ≠ 0 → ∃ v, nz_i64 n = .ok v)) ∧
    (∀ n : Int, (nz_u128 n = .indexError ↔ n = 0) ∧
      (n ≠ 0 → ∃ v, nz_u128 n = .ok v)) ∧
    (∀ n : Int, (nz_i128 n = .indexError ↔ n = 0) ∧
      (n ≠ 0 → ∃ v, nz_i128 n = .ok v)) :=
  ⟨constAssert_none_iff,
   fun n => ⟨indexError_iff_zero _ _ nz_usize_eqCtor n, exists_ok_of_ne _ _ nz_usize_eqCtor n⟩,
   fun n => ⟨indexError_iff_zero _ _ nz_isize_eqCtor n, exists_ok_of_ne _ _ nz_isize_eqCtor n⟩,
   fun n => ⟨indexError_iff_zero _ _ nz_u8_eqCtor n, exists_ok_of_ne _ _ nz_u8_eqCtor n⟩,
   fun n => ⟨indexError_iff_zero _ _ nz_i8_eqCtor n, exists_ok_of_ne _ _ nz_i8_eqCtor n⟩,
   fun n => ⟨indexError_iff_zero _ _ nz_u16_eqCtor n, exists_ok_of_ne _ _ nz_u16_eqCtor n⟩,
   fun n => ⟨indexError_iff_zero _ _ nz_i16_eqCtor n, exists_ok_of_ne _ _ nz_i16_eqCtor n⟩,
   fun n => ⟨indexError_iff_zero _ _ nz_u32_eqCtor n, exists_ok_of_ne _ _ nz_u32_eqCtor n⟩,
   fun n => ⟨indexError_iff_zero _ _ nz_i32_eqCtor n, exists_ok_of_ne _ _ nz_i32_eqCtor n⟩,
   fun n => ⟨indexError_iff_zero _ _ nz_u64_eqCtor n, exists_ok_of_ne _ _ nz_u64_eqCtor n⟩,
   fun n => ⟨indexError_iff_zero _ _ nz_i64_eqCtor n, exists_ok_of_ne _ _ nz_i64_eqCtor n⟩,
   fun n => ⟨indexError_iff_zero _ _ nz_u128_eqCtor n, exists_ok_of_ne _ _ nz_u128_eqCtor n⟩,
   fun n => ⟨indexError_iff_zero _ _ nz_i128_eqCtor n, exists_ok_of_ne _ _ nz_i128_eqCtor n⟩⟩

/-- C2 witness: 7 is non-zero, and `nz_usize 7` evaluates normally. -/
theorem C2_assert_oob_iff_zero_witness : ∃ v, nz_usize 7 = .ok v :=
  (C2_assert_oob_iff_zero.2.1 7).2 (by decide)

/-- C3: under the precondition `n ≠ 0`, the `None` arm of the match on
`NonZeroT::new(n)` is unreachable in each helper: `new` returns `Some` for
every non-zero `n`, and the helper never reaches the infinite loop. -/
theorem C3_none_arm_unreachable :
    (∀ n : Int, n ≠ 0 →
      NonZero.new usizeTy n = some ⟨n⟩ ∧ nz_usize n ≠ .diverges) ∧
    (∀ n : Int, n ≠ 0 →
      NonZero.new isizeTy n = some ⟨n⟩ ∧ nz_isize n ≠ .diverges) ∧
    (∀ n : Int, n ≠ 0 →
      NonZero.new u8Ty n = some ⟨n⟩ ∧ nz_u8 n ≠ .diverges) ∧
    (∀ n : Int, n ≠ 0 →
      NonZero.new i8Ty n = some ⟨n⟩ ∧ nz_i8 n ≠ .diverges) ∧
    (∀ n : Int, n ≠ 0 →
      NonZero.new u16Ty n = some ⟨n⟩ ∧ nz_u16 n ≠ .diverges) ∧
    (∀ n : Int, n ≠ 0 →
      NonZero.new i16Ty n = some ⟨n⟩ ∧ nz_i16 n ≠ .diverges) ∧
    (∀ n : Int, n ≠ 0 →
      NonZero.new u32Ty n = some ⟨n⟩ ∧ nz_u32 n ≠ .diverges) ∧
    (∀ n : Int, n ≠ 0 →
      NonZero.new i32Ty n = some ⟨n⟩ ∧ nz_i32 n ≠ .diverges) ∧
    (∀ n : Int, n ≠ 0 →
      NonZero.new u64Ty n = some ⟨n⟩ ∧ nz_u64 n ≠ .diverges) ∧
    (∀ n : Int, n ≠ 0 →
      NonZero.new i64Ty n = some ⟨n⟩ ∧ nz_i64 n ≠ .diverges) ∧
    (∀ n : Int, n ≠ 0 →
      NonZero.new u128Ty n = some ⟨n⟩ ∧ nz_u128 n ≠ .diverges) ∧
    (∀ n : Int, n ≠ 0 →
      NonZero.new i128Ty n = some ⟨n⟩ ∧ nz_i128 n ≠ .diverges) :=
  ⟨fun n h => ⟨new_isSome_of_ne usizeTy n h, ne_diverges _ _ nz_usize_eqCtor n⟩,
   fun n h => ⟨new_isSome_of_ne isizeTy n h, ne_diverges _ _ nz_isize_eqCtor n⟩,
   fun n h => ⟨new_isSome_of_ne u8Ty n h, ne_diverges _ _ nz_u8_eqCtor n⟩,
   fun n h => ⟨new_isSome_of_ne i8Ty n h, ne_diverges _ _ nz_i8_eqCtor n⟩,
   fun n h => ⟨new_isSome_of_ne u16Ty n h, ne_diverges _ _ nz_u16_eqCtor n⟩,
   fun n h => ⟨new_isSome_of_ne i16Ty n h, ne_diverges _ _ nz_i16_eqCtor n⟩,
   fun n h => ⟨new_isSome_of_ne u32Ty n h, ne_diverges _ _ nz_u32_eqCtor n⟩,
   fun n h => ⟨new_isSome_of_ne i32Ty n h, ne_diverges _ _ nz_i32_eqCtor n⟩,
   fun n h => ⟨new_isSome_of_ne u64Ty n h, ne_diverges _ _ nz_u64_eqCtor n⟩,
   fun n h => ⟨new_isSome_of_ne i64Ty n h, ne_diverges _ _ nz_i64_eqCtor n⟩,
   fun n h => ⟨new_isSome_of_ne u128Ty n h, ne_diverges _ _ nz_u128_eqCtor n⟩,
   fun n h => ⟨new_isSome_of_ne i128Ty n h, ne_diverges _ _ nz_i128_eqCtor n⟩⟩

/-- C3 witness: at `n = 3`, `new` returns `Some` and `nz_usize` avoids the
loop arm. -/
theorem C3_none_arm_unreachable_witness :
    NonZero.new usizeTy 3 = some ⟨3⟩ ∧ nz_usize 3 ≠ .diverges :=
  C3_none_arm_unreachable.1 3 (by decide)

/-- C5: the twelve helpers are twelve instances of one and the same
construction: each agrees extensionally with the generic template
`nzCtor` stamped out by `define_nz_ctor!`, and with the single reference
definition `nzSpecRef` ("assert `n ≠ 0`, then wrap `n`") written from the
spec, differing only in the primitive and wrapper type. -/
theorem C5_twelve_instances_of_one :
    (∀ n : Int, nz_usize n = nzCtor usizeTy n ∧ nz_usize n = nzSpecRef usizeTy n) ∧
    (∀ n : Int, nz_isize n = nzCtor isizeTy n ∧ nz_isize n = nzSpecRef isizeTy n) ∧
    (∀ n : Int, nz_u8 n = nzCtor u8Ty n ∧ nz_u8 n = nzSpecRef u8Ty n) ∧
    (∀ n : Int, nz_i8 n = nzCtor i8Ty n ∧ nz_i8 n = nzSpecRef i8Ty n) ∧
    (∀ n : Int, nz_u16 n = nzCtor u16Ty n ∧ nz_u16 n = nzSpecRef u16Ty n) ∧
    (∀ n : Int, nz_i16 n = nzCtor i16Ty n ∧ nz_i16 n = nzSpecRef i16Ty n) ∧
    (∀ n : Int, nz_u32 n = nzCtor u32Ty n ∧ nz_u32 n = nzSpecRef u32Ty n) ∧
    (∀ n : Int, nz_i32 n = nzCtor i32Ty n ∧ nz_i32 n = nzSpecRef i32Ty n) ∧
    (∀ n : Int, nz_u64 n = nzCtor u64Ty n ∧ nz_u64 n = nzSpecRef u64Ty n) ∧
    (∀ n : Int, nz_i64 n = nzCtor i64Ty n ∧ nz_i64 n = nzSpecRef i64Ty n) ∧
    (∀ n : Int, nz_u128 n = nzCtor u128Ty n ∧ nz_u128 n = nzSpecRef u128Ty n) ∧
    (∀ n : Int, nz_i128 n = nzCtor i128Ty n ∧ nz_i128 n = nzSpecRef i128Ty n) :=
  ⟨fun n => ⟨nz_usize_eqCtor n, (nz_usize_eqCtor n).trans (nzCtor_eq_specRef usizeTy n)⟩,
   fun n => ⟨nz_isize_eqCtor n, (nz_isize_eqCtor n).trans (nzCtor_eq_specRef isizeTy n)⟩,
   fun n => ⟨nz_u8_eqCtor n, (nz_u8_eqCtor n).trans (nzCtor_eq_specRef u8Ty n)⟩,
   fun n => ⟨nz_i8_eqCtor n, (nz_i8_eqCtor n).trans (nzCtor_eq_specRef i8Ty n)⟩,
   fun n => ⟨nz_u16_eqCtor n, (nz_u16_eqCtor n).trans (nzCtor_eq_specRef u16Ty n)⟩,
   fun n => ⟨nz_i16_eqCtor n, (nz_i16_eqCtor n).trans (nzCtor_eq_specRef i16Ty n)⟩,
   fun n => ⟨nz_u32_eqCtor n, (nz_u32_eqCtor n).trans (nzCtor_eq_specRef u32Ty n)⟩,
   fun n => ⟨nz_i32_eqCtor n, (nz_i32_eqCtor n).trans (nzCtor_eq_specRef i32Ty n)⟩,
   fun n => ⟨nz_u64_eqCtor n, (nz_u64_eqCtor n).trans (nzCtor_eq_specRef u64Ty n)⟩,
   fun n => ⟨nz_i64_eqCtor n, (nz_i64_eqCtor n).trans (nzCtor_eq_specRef i64Ty n)⟩,
   fun n => ⟨nz_u128_eqCtor n, (nz_u128_eqCtor n).trans (nzCtor_eq_specRef u128Ty n)⟩,
   fun n => ⟨nz_i128_eqCtor n, (nz_i128_eqCtor n).trans (nzCtor_eq_specRef i128Ty n)⟩⟩

/-- C6: round trip for each type: `nz_T (v.get) = v` for every non-zero
wrapper value `v`, and `(nz_T n).get = n` for every `n ≠ 0`; `nz_T` and
`get` are mutually inverse between the non-zero integers of `T` and the
wrapper. -/
theorem C6_round_trip :
    ((∀ v : NonZero usizeTy, v.get ≠ 0 → nz_usize v.get = .ok v) ∧
     (∀ n : Int, n ≠ 0 → ∀ v : NonZero usizeTy, nz_usize n = .ok v → v.get = n)) ∧
    ((∀ v : NonZero isizeTy, v.get ≠ 0 → nz_isize v.get = .ok v) ∧
     (∀ n : Int, n ≠ 0 → ∀ v : NonZero isizeTy, nz_isize n = .ok v → v.get = n)) ∧
    ((∀ v : NonZero u8Ty, v.get ≠ 0 → nz_u8 v.get = .ok v) ∧
     (∀ n : Int, n ≠ 0 → ∀ v : NonZero u8Ty, nz_u8 n = .ok v → v.get = n)) ∧
    ((∀ v : NonZero i8Ty, v.get ≠ 0 → nz_i8 v.get = .ok v) ∧
     (∀ n : Int, n ≠ 0 → ∀ v : NonZero i8Ty, nz_i8 n = .ok v → v.get = n)) ∧
    ((∀ v : NonZero u16Ty, v.get ≠ 0 → nz_u16 v.get = .ok v) ∧
     (∀ n : Int, n ≠ 0 → ∀ v : NonZero u16Ty, nz_u16 n = .ok v → v.get = n)) ∧
    ((∀ v : NonZero i16Ty, v.get ≠ 0 → nz_i16 v.get = .ok v) ∧
     (∀ n : Int, n ≠ 0 → ∀ v : NonZero i16Ty, nz_i16 n = .ok v → v.get = n)) ∧
    ((∀ v : NonZero u32Ty, v.get ≠ 0 → nz_u32 v.get = .ok v) ∧
     (∀ n : Int, n ≠ 0 → ∀ v : NonZero u32Ty, nz_u32 n = .ok v → v.get = n)) ∧
    ((∀ v : NonZero i32Ty, v.get ≠ 0 → nz_i32 v.get = .ok v) ∧
     (∀ n : Int, n ≠ 0 → ∀ v : NonZero i32Ty, nz_i32 n = .ok v → v.get = n)) ∧
    ((∀ v : NonZero u64Ty, v.get ≠ 0 → nz_u64 v.get = .ok v) ∧
     (∀ n : Int, n ≠ 0 → ∀ v : NonZero u64Ty, nz_u64 n = .ok v → v.get = n)) ∧
    ((∀ v : NonZero i64Ty, v.get ≠ 0 → nz_i64 v.get = .ok v) ∧
     (∀ n : Int, n ≠ 0 → ∀ v : NonZero i64Ty, nz_i64 n = .ok v → v.get = n)) ∧
    ((∀ v : NonZero u128Ty, v.get ≠ 0 → nz_u128 v.get = .ok v) ∧
     (∀ n : Int, n ≠ 0 → ∀ v : NonZero u128Ty, nz_u128 n = .ok v → v.get = n)) ∧
    ((∀ v : NonZero i128Ty, v.get ≠ 0 → nz_i128 v.get = .ok v) ∧
     (∀ n : Int, n ≠ 0 → ∀ v : NonZero i128Ty, nz_i128 n = .ok v → v.get = n)) :=
  ⟨⟨f_roundtrip _ _ nz_usize_eqCtor, fun n _ v hv => f_get_eq _ _ nz_usize_eqCtor n v hv⟩,
   ⟨f_roundtrip _ _ nz_isize_eqCtor, fun n _ v hv => f_get_eq _ _ nz_isize_eqCtor n v hv⟩,
   ⟨f_roundtrip _ _ nz_u8_eqCtor, fun n _ v hv => f_get_eq _ _ nz_u8_eqCtor n v hv⟩,
   ⟨f_roundtrip _ _ nz_i8_eqCtor, fun n _ v hv => f_get_eq _ _ nz_i8_eqCtor n v hv⟩,
   ⟨f_roundtrip _ _ nz_u16_eqCtor, fun n _ v hv => f_get_eq _ _ nz_u16_eqCtor n v hv⟩,
   ⟨f_roundtrip _ _ nz_i16_eqCtor, fun n _ v hv => f_get_eq _ _ nz_i16_eqCtor n v hv⟩,
   ⟨f_roundtrip _ _ nz_u32_eqCtor, fun n _ v hv => f_get_eq _ _ nz_u32_eqCtor n v hv⟩,
   ⟨f_roundtrip _ _ nz_i32_eqCtor, fun n _ v hv => f_get_eq _ _ nz_i32_eqCtor n v hv⟩,
   ⟨f_roundtrip _ _ nz_u64_eqCtor, fun n _ v hv => f_get_eq _ _ nz_u64_eqCtor n v hv⟩,
   ⟨f_roundtrip _ _ nz_i64_eqCtor, fun n _ v hv => f_get_eq _ _ nz_i64_eqCtor n v hv⟩,
   ⟨f_roundtrip _ _ nz_u128_eqCtor, fun n _ v hv => f_get_eq _ _ nz_u128_eqCtor n v hv⟩,
   ⟨f_roundtrip _ _ nz_i128_eqCtor, fun n _ v hv => f_get_eq _ _ nz_i128_eqCtor n v hv⟩⟩

/-- C6 witness: the wrapper of 9 round-trips through `nz_usize`. -/
theorem C6_round_trip_witness :
    nz_usize (NonZero.get (⟨9⟩ : NonZero usizeTy)) = .ok ⟨9⟩ :=
  C6_round_trip.1.1 ⟨9⟩ (by decide)

/-- C7: whenever a helper (or its macro) returns normally, the returned
wrapper's wrapped integer is non-zero — the library never yields a wrapper
containing zero. -/
theorem C7_wrapped_nonzero :
    (∀ (n : Int) (v : NonZero usizeTy),
      (nz_usize n = .ok v → v.get ≠ 0) ∧ (lit_usize n = .ok v → v.get ≠ 0)) ∧
    (∀ (n : Int) (v : NonZero isizeTy),
      (nz_isize n = .ok v → v.get ≠ 0) ∧ (lit_isize n = .ok v → v.get ≠ 0)) ∧
    (∀ (n : Int) (v : NonZero u8Ty),
      (nz_u8 n = .ok v → v.get ≠ 0) ∧ (lit_u8 n = .ok v → v.get ≠ 0)) ∧
    (∀ (n : Int) (v : NonZero i8Ty),
      (nz_i8 n = .ok v → v.get ≠ 0) ∧ (lit_i8 n = .ok v → v.get ≠ 0)) ∧
    (∀ (n : Int) (v : NonZero u16Ty),
      (nz_u16 n = .ok v → v.get ≠ 0) ∧ (lit_u16 n = .ok v → v.get ≠ 0)) ∧
    (∀ (n : Int) (v : NonZero i16Ty),
      (nz_i16 n = .ok v → v.get ≠ 0) ∧ (lit_i16 n = .ok v → v.get ≠ 0)) ∧
    (∀ (n : Int) (v : NonZero u32Ty),
      (nz_u32 n = .ok v → v.get ≠ 0) ∧ (lit_u32 n = .ok v → v.get ≠ 0)) ∧
    (∀ (n : Int) (v : NonZero i32Ty),
      (nz_i32 n = .ok v → v.get ≠ 0) ∧ (lit_i32 n = .ok v → v.get ≠ 0)) ∧
    (∀ (n : Int) (v : NonZero u64Ty),
      (nz_u64 n = .ok v → v.get ≠ 0) ∧ (lit_u64 n = .ok v → v.get ≠ 0)) ∧
    (∀ (n : Int) (v : NonZero i64Ty),
      (nz_i64 n = .ok v → v.get ≠ 0) ∧ (lit_i64 n = .ok v → v.get ≠ 0)) ∧
    (∀ (n : Int) (v : NonZero u128Ty),
      (nz_u128 n = .ok v → v.get ≠ 0) ∧ (lit_u128 n = .ok v → v.get ≠ 0)) ∧
    (∀ (n : Int) (v : NonZero i128Ty),
      (nz_i128 n = .ok v → v.get ≠ 0) ∧ (lit_i128 n = .ok v → v.get ≠ 0)) :=
  ⟨fun n v => ⟨f_get_ne _ _ nz_usize_eqCtor n v, f_get_ne _ _ lit_usize_eqCtor n v⟩,
   fun n v => ⟨f_get_ne _ _ nz_isize_eqCtor n v, f_get_ne _ _ lit_isize_eqCtor n v⟩,
   fun n v => ⟨f_get_ne _ _ nz_u8_eqCtor n v, f_get_ne _ _ lit_u8_eqCtor n v⟩,
   fun n v => ⟨f_get_ne _ _ nz_i8_eqCtor n v, f_get_ne _ _ lit_i8_eqCtor n v⟩,
   fun n v => ⟨f_get_ne _ _ nz_u16_eqCtor n v, f_get_ne _ _ lit_u16_eqCtor n v⟩,
   fun n v => ⟨f_get_ne _ _ nz_i16_eqCtor n v, f_get_ne _ _ lit_i16_eqCtor n v⟩,
   fun n v => ⟨f_get_ne _ _ nz_u32_eqCtor n v, f_get_ne _ _ lit_u32_eqCtor n v⟩,
   fun n v => ⟨f_get_ne _ _ nz_i32_eqCtor n v, f_get_ne _ _ lit_i32_eqCtor n v⟩,
   fun n v => ⟨f_get_ne _ _ nz_u64_eqCtor n v, f_get_ne _ _ lit_u64_eqCtor n v⟩,
   fun n v => ⟨f_get_ne _ _ nz_i64_eqCtor n v, f_get_ne _ _ lit_i64_eqCtor n v⟩,
   fun n v => ⟨f_get_ne _ _ nz_u128_eqCtor n v, f_get_ne _ _ lit_u128_eqCtor n v⟩,
   fun n v => ⟨f_get_ne _ _ nz_i128_eqCtor n v, f_get_ne _ _ lit_i128_eqCtor n v⟩⟩

/-- C7 witness: the wrapper that `nz_usize 4` returns holds a non-zero value. -/
theorem C7_wrapped_nonzero_witness :
    NonZero.get (⟨4⟩ : NonZero usizeTy) ≠ 0 :=
  (C7_wrapped_nonzero.1 4 ⟨4⟩).1 (by decide)

/-- C8: under the precondition `n ≠ 0`, each helper terminates: the
`loop \x7b\x7d` arm is never executed, the assert never fires, and
evaluation ends normally with the wrapper of `n`. -/
theorem C8_terminates_on_nonzero :
    (∀ n : Int, n ≠ 0 →
      nz_usize n ≠ .diverges ∧ nz_usize n ≠ .indexError ∧ nz_usize n = .ok ⟨n⟩) ∧
    (∀ n : Int, n ≠ 0 →
      nz_isize n ≠ .diverges ∧ nz_isize n ≠ .indexError ∧ nz_isize n = .ok ⟨n⟩) ∧
    (∀ n : Int, n ≠ 0 →
      nz_u8 n ≠ .diverges ∧ nz_u8 n ≠ .indexError ∧ nz_u8 n = .ok ⟨n⟩) ∧
    (∀ n : Int, n ≠ 0 →
      nz_i8 n ≠ .diverges ∧ nz_i8 n ≠ .indexError ∧ nz_i8 n = .ok ⟨n⟩) ∧
    (∀ n : Int, n ≠ 0 →
      nz_u16 n ≠ .diverges ∧ nz_u16 n ≠ .indexError ∧ nz_u16 n = .ok ⟨n⟩) ∧
    (∀ n : Int, n ≠ 0 →
      nz_i16 n ≠ .diverges ∧ nz_i16 n ≠ .indexError ∧ nz_i16 n = .ok ⟨n⟩) ∧
    (∀ n : Int, n ≠ 0 →
      nz_u32 n ≠ .diverges ∧ nz_u32 n ≠ .indexError ∧ nz_u32 n = .ok ⟨n⟩) ∧
    (∀ n : Int, n ≠ 0 →
      nz_i32 n ≠ .diverges ∧ nz_i32 n ≠ .indexError ∧ nz_i32 n = .ok ⟨n⟩) ∧
    (∀ n : Int, n ≠ 0 →
      nz_u64 n ≠ .diverges ∧ nz_u64 n ≠ .indexError ∧ nz_u64 n = .ok ⟨n⟩) ∧
    (∀ n : Int, n ≠ 0 →
      nz_i64 n ≠ .diverges ∧ nz_i64 n ≠ .indexError ∧ nz_i64 n = .ok ⟨n⟩) ∧
    (∀ n : Int, n ≠ 0 →
      nz_u128 n ≠ .diverges ∧ nz_u128 n ≠ .indexError ∧ nz_u128 n = .ok ⟨n⟩) ∧
    (∀ n : Int, n ≠ 0 →
      nz_i128 n ≠ .diverges ∧ nz_i128 n ≠ .indexError ∧ nz_i128 n = .ok ⟨n⟩) :=
  ⟨f_total _ _ nz_usize_eqCtor, f_total _ _ nz_isize_eqCtor,
   f_total _ _ nz_u8_eqCtor, f_total _ _ nz_i8_eqCtor,
   f_total _ _ nz_u16_eqCtor, f_total _ _ nz_i16_eqCtor,
   f_total _ _ nz_u32_eqCtor, f_total _ _ nz_i32_eqCtor,
   f_total _ _ nz_u64_eqCtor, f_total _ _ nz_i64_eqCtor,
   f_total _ _ nz_u128_eqCtor, f_total _ _ nz_i128_eqCtor⟩

/-- C8 witness: `nz_usize 6` neither diverges nor errors. -/
theorem C8_terminates_on_nonzero_witness :
    nz_usize 6 ≠ .diverges ∧ nz_usize 6 ≠ .indexError ∧ nz_usize 6 = .ok ⟨6⟩ :=
  C8_terminates_on_nonzero.1 6 (by decide)

/-- C9: the extremes of each type — signed minimum, unsigned maximum — are
in range, accepted, and preserved exactly, with no overflow, truncation, or
sign change. -/
theorem C9_extremes :
    (usizeTy.inRange (2 ^ 64 - 1) ∧ nz_usize (2 ^ 64 - 1) = .ok ⟨2 ^ 64 - 1⟩) ∧
    (isizeTy.inRange (-(2 ^ 63)) ∧ nz_isize (-(2 ^ 63)) = .ok ⟨-(2 ^ 63)⟩) ∧
    (u8Ty.inRange 255 ∧ nz_u8 255 = .ok ⟨255⟩) ∧
    (i8Ty.inRange (-128) ∧ nz_i8 (-128) = .ok ⟨-128⟩) ∧
    (u16Ty.inRange 65535 ∧ nz_u16 65535 = .ok ⟨65535⟩) ∧
    (i16Ty.inRange (-32768) ∧ nz_i16 (-32768) = .ok ⟨-32768⟩) ∧
    (u32Ty.inRange 4294967295 ∧ nz_u32 4294967295 = .ok ⟨4294967295⟩) ∧
    (i32Ty.inRange (-2147483648) ∧ nz_i32 (-2147483648) = .ok ⟨-2147483648⟩) ∧
    (u64Ty.inRange (2 ^ 64 - 1) ∧ nz_u64 (2 ^ 64 - 1) = .ok ⟨2 ^ 64 - 1⟩) ∧
    (i64Ty.inRange (-(2 ^ 63)) ∧ nz_i64 (-(2 ^ 63)) = .ok ⟨-(2 ^ 63)⟩) ∧
    (u128Ty.inRange (2 ^ 128 - 1) ∧ nz_u128 (2 ^ 128 - 1) = .ok ⟨2 ^ 128 - 1⟩) ∧
    (i128Ty.inRange (-(2 ^ 127)) ∧ nz_i128 (-(2 ^ 127)) = .ok ⟨-(2 ^ 127)⟩) := by
  decide

/-- C10: each helper is deterministic and pure: it is a function of its
argument alone, so equal inputs give identical results. -/
theorem C10_deterministic :
    (∀ m n : Int, m = n → nz_usize m = nz_usize n) ∧
    (∀ m n : Int, m = n → nz_isize m = nz_isize n) ∧
    (∀ m n : Int, m = n → nz_u8 m = nz_u8 n) ∧
    (∀ m n : Int, m = n → nz_i8 m = nz_i8 n) ∧
    (∀ m n : Int, m = n → nz_u16 m = nz_u16 n) ∧
    (∀ m n : Int, m = n → nz_i16 m = nz_i16 n) ∧
    (∀ m n : Int, m = n → nz_u32 m = nz_u32 n) ∧
    (∀ m n : Int, m = n → nz_i32 m = nz_i32 n) ∧
    (∀ m n : Int, m = n → nz_u64 m = nz_u64 n) ∧
    (∀ m n : Int, m = n → nz_i64 m = nz_i64 n) ∧
    (∀ m n : Int, m = n → nz_u128 m = nz_u128 n) ∧
    (∀ m n : Int, m = n → nz_i128 m = nz_i128 n) :=
  ⟨fun _ _ h => congrArg nz_usize h, fun _ _ h => congrArg nz_isize h,
   fun _ _ h => congrArg nz_u8 h, fun _ _ h => congrArg nz_i8 h,
   fun _ _ h => congrArg nz_u16 h, fun _ _ h => congrArg nz_i16 h,
   fun _ _ h => congrArg nz_u32 h, fun _ _ h => congrArg nz_i32 h,
   fun _ _ h => congrArg nz_u64 h, fun _ _ h => congrArg nz_i64 h,
   fun _ _ h => congrArg nz_u128 h, fun _ _ h => congrArg nz_i128 h⟩

/-- C10 witness: two evaluations of `nz_usize` at 7 agree. -/
theorem C10_deterministic_witness : nz_usize 7 = nz_usize 7 :=
  C10_deterministic.1 7 7 rfl

end NonzeroLit
